import Mathlib

set_option linter.unusedVariables false

/-
Verification of the `mongo` wrapper package.

The repository contains two near-duplicate implementations of a thin
facade over the mgo driver:
  * `src/unnamed/part_000` — the per-client variant: `Client` carries
    `host`, `session` and a sticky `connErr` field (namespace `StructV`
    below);
  * `src/mongo.go` — the global-session variant: the sticky `connErr`
    is a package-level variable, read by every facade method
    (namespace `GlobalV` below).

The driver (mgo/bson) is external to the repository.  Facade methods are
embedded as functions of the client/global state plus an oracle argument
holding the single driver call's response; each returns an `FRes` record
with the Go return values, the number of driver operations attempted,
session-copy bookkeeping, and the state after the call.  Errors are
modelled as `String` (Go `error` values compared by message), a Go `nil`
error as `none`.  The bson identifier helpers (`Hex`, `IsObjectIdHex`,
`ObjectIdHex`) live in the external bson library, so their bodies are
modelled from the spec's contract (see the doc comments).
-/

/-- Go `error` values, modelled by their message; `Option Err` with
`none` for a `nil` error. -/
abbrev Err := String

/-- Dynamic values stored in Go `interface{}` / `bson.M` slots, as far as
the wrapper inspects them: `nil`, ints, strings, the wrapper's `Sort`
type (`[]string`), and raw byte strings. -/
inductive GoVal where
  | vNil : GoVal
  | vInt : Int → GoVal
  | vStr : String → GoVal
  | vSort : List String → GoVal
  | vBytes : List Nat → GoVal
deriving DecidableEq, Repr

/-- A Go `map[string]interface{}` / `bson.M`, as an association list
(first binding wins, mirroring unique map keys). -/
abbrev GoMap := List (String × GoVal)

/-- Go map indexing `m[k]`: the stored value, or the zero value of
`interface{}` (nil) when the key is absent. -/
def lookupGo (m : GoMap) (k : String) : GoVal :=
  match m with
  | [] => GoVal.vNil
  | (k₂, v) :: rest => if k₂ = k then v else lookupGo rest k

/-- Go type assertion `v.(Sort)`: the ordered field list when the dynamic
type is `Sort`, otherwise assertion failure (`ok = false`). -/
def asSort : GoVal → Option (List String)
  | GoVal.vSort l => some l
  | _ => none

/-- Go type assertion `v.(int)`. -/
def asInt : GoVal → Option Int
  | GoVal.vInt n => some n
  | _ => none

/-- The fields of `mgo.ChangeInfo` the wrapper reads. -/
structure ChangeInfo where
  Updated : Int
  Removed : Int
  Matched : Int
  UpsertedId : GoVal
deriving DecidableEq, Repr

/-- An mgo session as far as the wrapper configures it: the socket
timeout it sets at connect time (nanoseconds). -/
structure Session where
  socketTimeout : Int
deriving DecidableEq, Repr

/-- `24 * time.Hour` in nanoseconds, the socket timeout both `Conn`
variants install on a freshly dialed session. -/
def socketTimeout24h : Int := 24 * 3600000000000

/-- The query modifiers `GetResult` may install on an mgo query before
running it: `Sort`, `Limit`, `Skip`; `none` means the modifier was not
applied. -/
structure FindOpts where
  sort : Option (List String)
  limit : Option Int
  skip : Option Int
deriving DecidableEq, Repr

/-- Result of running one facade method: the Go return values `ret`, the
number of driver operations attempted (`calls`), the number of session
copies acquired (`copies`) and released (`closes`), and the
client/global state `st` after the call. -/
structure FRes (σ : Type) (α : Type) where
  ret : α
  calls : Nat
  copies : Nat
  closes : Nat
  st : σ
deriving DecidableEq, Repr

/-- The wrapped connection error `fmt.Errorf("host: %s error: %s", host, msg)`
built by the per-client `Conn` and `Ping`. -/
def connFailMsg (host msg : String) : Err :=
  "host: " ++ host ++ " error: " ++ msg

/- ------------------------------------------------------------------ -/
/- Identifier utilities.  The wrapper delegates to the bson library,
   whose source is not part of this repository; the hex codec below is
   modelled from the spec's contract for it. -/

/-- Modelled from the spec: lowercase hexadecimal digit for a value
below 16, as produced by the driver's hex encoding. -/
def hexDigit (n : Nat) : Char :=
  if n < 10 then Char.ofNat (48 + n) else Char.ofNat (87 + n)

/-- Modelled from the spec: the two lowercase hex digits of one byte. -/
def byteToHex (b : Nat) : List Char :=
  [hexDigit (b / 16), hexDigit (b % 16)]

/-- Modelled from the spec: hex-encode a byte sequence to its lowercase
hexadecimal text form (`hex.EncodeToString`). -/
def hexEncode (bs : List Nat) : String :=
  ⟨(bs.map byteToHex).flatten⟩

/-- Modelled from the spec: decode one hex digit; accepts `0-9`, `a-f`
and `A-F`, as standard hex decoding does. -/
def decodeHexDigit (c : Char) : Option Nat :=
  if '0' ≤ c ∧ c ≤ '9' then some (c.toNat - 48)
  else if 'a' ≤ c ∧ c ≤ 'f' then some (c.toNat - 87)
  else if 'A' ≤ c ∧ c ≤ 'F' then some (c.toNat - 55)
  else none

/-- Modelled from the spec: hex-decode a character list two digits at a
time (`hex.DecodeString`); fails on odd length or a non-hex character. -/
def hexDecodeList : List Char → Option (List Nat)
  | [] => some []
  | [_] => none
  | c₁ :: c₂ :: rest =>
    match decodeHexDigit c₁, decodeHexDigit c₂, hexDecodeList rest with
    | some h, some l, some bs => some ((16 * h + l) :: bs)
    | _, _, _ => none

/-- A 12-byte ObjectId, as its byte sequence. -/
abbrev ObjectID := List Nat

/-- `Hex` from both source files: render an ObjectId as hexadecimal
text (delegates to `bson.ObjectId.Hex`, modelled by `hexEncode`). -/
def Hex (oid : ObjectID) : String :=
  hexEncode oid

/-- `IsObjectIdHex` from `src/unnamed/part_000` (delegating to
`bson.IsObjectIdHex`, modelled from the spec: length must be 24 and the
string must hex-decode). -/
def IsObjectIdHex (s : String) : Bool :=
  s.length == 24 && (hexDecodeList s.data).isSome

/-- `ObjectIDHex` from both source files (delegating to
`bson.ObjectIdHex`, modelled from the spec: the reference behavior
aborts on malformed input, embedded as an `Except` failure carrying the
panic message; success requires the decode to yield exactly 12 bytes). -/
def ObjectIDHex (s : String) : Except String ObjectID :=
  match hexDecodeList s.data with
  | some d =>
    if d.length = 12 then Except.ok d
    else Except.error ("invalid input to ObjectIdHex: " ++ s)
  | none => Except.error ("invalid input to ObjectIdHex: " ++ s)

/- ------------------------------------------------------------------ -/
/- Per-client variant, `src/unnamed/part_000`.  Each facade method takes
   the receiver, the Go arguments, and an oracle for the response of the
   single driver call its body makes. -/

namespace StructV

/-- `Client` from `src/unnamed/part_000`: host (for error messages), the
dialed session, and the sticky connection error. -/
structure Client where
  host : String
  session : Option Session
  connErr : Option Err
deriving DecidableEq, Repr

/-- `Conn` from `src/unnamed/part_000`.  `host` is the `Host` field of
the parsed URL (`url.Parse` is external; its success is assumed) and
`dialRes` the outcome of `mgo.Dial`.  On dial failure the sticky error
wraps the host and the dial error's message; on success the session's
socket timeout is set to 24 hours. -/
def Conn (host : String) (dialRes : Option Err) : Client :=
  match dialRes with
  | some e => { host := "", session := none, connErr := some (connFailMsg host e) }
  | none => { host := host, session := some { socketTimeout := socketTimeout24h }, connErr := none }

/-- `Client.Ping` from `src/unnamed/part_000`: short-circuits on the
sticky error; otherwise copies the session, pings (`pingRes` is the
driver response), records a wrapped sticky error on failure, closes the
copy, and returns the (possibly updated) sticky error. -/
def Client.Ping (c : Client) (pingRes : Option Err) : FRes Client (Option Err) :=
  match c.connErr with
  | some e => { ret := some e, calls := 0, copies := 0, closes := 0, st := c }
  | none =>
    match pingRes with
    | some e =>
      let c₂ := { c with connErr := some (connFailMsg c.host e) }
      { ret := c₂.connErr, calls := 1, copies := 1, closes := 1, st := c₂ }
    | none => { ret := c.connErr, calls := 1, copies := 1, closes := 1, st := c }

/-- `Client.GetRow` from `src/unnamed/part_000`; `drv` is the response
of `conn.Find(query).One(result)`. -/
def Client.GetRow (c : Client) (database collection : String) (query : GoMap)
    (drv : Option Err) : FRes Client (Option Err) :=
  match c.connErr with
  | some e => { ret := some e, calls := 0, copies := 0, closes := 0, st := c }
  | none => { ret := drv, calls := 1, copies := 1, closes := 1, st := c }

/-- The `Sort` step of `GetResult`, shared verbatim by both variants:
`if options["Sort"] != "" { if sort, ok := options["Sort"].(Sort); ok { find.Sort(sort...) } }`.
The interface comparison with `""` is false only when the slot holds the
string `""` itself; a failed type assertion applies nothing. -/
def applySort (options : GoMap) (f : FindOpts) : FindOpts :=
  if lookupGo options "Sort" ≠ GoVal.vStr "" then
    match asSort (lookupGo options "Sort") with
    | some s => { f with sort := some s }
    | none => f
  else f

/-- The `Limit` step of `GetResult`. -/
def applyLimit (options : GoMap) (f : FindOpts) : FindOpts :=
  if lookupGo options "Limit" ≠ GoVal.vStr "" then
    match asInt (lookupGo options "Limit") with
    | some n => { f with limit := some n }
    | none => f
  else f

/-- The `Skip` step of `GetResult`. -/
def applySkip (options : GoMap) (f : FindOpts) : FindOpts :=
  if lookupGo options "Skip" ≠ GoVal.vStr "" then
    match asInt (lookupGo options "Skip") with
    | some n => { f with skip := some n }
    | none => f
  else f

/-- The query modifiers `GetResult` installs, in the statement order of
the source: Sort, then Limit, then Skip, starting from an unmodified
query. -/
def buildFindOpts (options : GoMap) : FindOpts :=
  applySkip options (applyLimit options
    (applySort options { sort := none, limit := none, skip := none }))

/-- `Client.GetResult` from `src/unnamed/part_000`: builds the query
modifiers from `options` and runs `find.All`; `drv` is that call's
response.  The returned pair is (error, modifiers actually applied). -/
def Client.GetResult (c : Client) (database collection : String)
    (query fields options : GoMap) (drv : Option Err) :
    FRes Client (Option Err × FindOpts) :=
  match c.connErr with
  | some e =>
    { ret := (some e, { sort := none, limit := none, skip := none }),
      calls := 0, copies := 0, closes := 0, st := c }
  | none =>
    { ret := (drv, buildFindOpts options), calls := 1, copies := 1, closes := 1, st := c }

/-- `Client.GetCount` from `src/unnamed/part_000`; `drv` is the pair
returned by `conn.Find(query).Count()`. -/
def Client.GetCount (c : Client) (database collection : String) (query : GoMap)
    (drv : Int × Option Err) : FRes Client (Int × Option Err) :=
  match c.connErr with
  | some e => { ret := (0, some e), calls := 0, copies := 0, closes := 0, st := c }
  | none => { ret := drv, calls := 1, copies := 1, closes := 1, st := c }

/-- `Client.Insert` from `src/unnamed/part_000`. -/
def Client.Insert (c : Client) (database collection : String) (docs : List GoVal)
    (drv : Option Err) : FRes Client (Option Err) :=
  match c.connErr with
  | some e => { ret := some e, calls := 0, copies := 0, closes := 0, st := c }
  | none => { ret := drv, calls := 1, copies := 1, closes := 1, st := c }

/-- `Client.Update` from `src/unnamed/part_000`. -/
def Client.Update (c : Client) (database collection : String) (selector update : GoMap)
    (drv : Option Err) : FRes Client (Option Err) :=
  match c.connErr with
  | some e => { ret := some e, calls := 0, copies := 0, closes := 0, st := c }
  | none => { ret := drv, calls := 1, copies := 1, closes := 1, st := c }

/-- The result map `{"Matched": ..., "Updated": ..., "UpsertedId": ...}`
built by `UpdateAll`/`Upsert` on driver success. -/
def changeInfoMap (info : ChangeInfo) : GoMap :=
  [("Matched", GoVal.vInt info.Matched), ("Updated", GoVal.vInt info.Updated),
   ("UpsertedId", info.UpsertedId)]

/-- `Client.UpdateAll` from `src/unnamed/part_000`: on a sticky error it
returns the literal empty (non-nil) map; on a driver error it returns a
nil map; on success the three-key result map.  `Option GoMap` models the
Go map with `none` for nil. -/
def Client.UpdateAll (c : Client) (database collection : String) (selector update : GoMap)
    (drv : Except Err ChangeInfo) : FRes Client (Option GoMap × Option Err) :=
  match c.connErr with
  | some e => { ret := (some [], some e), calls := 0, copies := 0, closes := 0, st := c }
  | none =>
    match drv with
    | Except.error e => { ret := (none, some e), calls := 1, copies := 1, closes := 1, st := c }
    | Except.ok info =>
      { ret := (some (changeInfoMap info), none), calls := 1, copies := 1, closes := 1, st := c }

/-- `Client.Upsert` from `src/unnamed/part_000` (same shape as
`UpdateAll`, driver call `conn.Upsert`). -/
def Client.Upsert (c : Client) (database collection : String) (selector update : GoMap)
    (drv : Except Err ChangeInfo) : FRes Client (Option GoMap × Option Err) :=
  match c.connErr with
  | some e => { ret := (some [], some e), calls := 0, copies := 0, closes := 0, st := c }
  | none =>
    match drv with
    | Except.error e => { ret := (none, some e), calls := 1, copies := 1, closes := 1, st := c }
    | Except.ok info =>
      { ret := (some (changeInfoMap info), none), calls := 1, copies := 1, closes := 1, st := c }

/-- `Client.Remove` from `src/unnamed/part_000`. -/
def Client.Remove (c : Client) (database collection : String) (selector : GoMap)
    (drv : Option Err) : FRes Client (Option Err) :=
  match c.connErr with
  | some e => { ret := some e, calls := 0, copies := 0, closes := 0, st := c }
  | none => { ret := drv, calls := 1, copies := 1, closes := 1, st := c }

/-- `Client.RemoveAll` from `src/unnamed/part_000`: `removed` stays at
its zero value unless the driver call succeeds. -/
def Client.RemoveAll (c : Client) (database collection : String) (selector : GoMap)
    (drv : Except Err ChangeInfo) : FRes Client (Int × Option Err) :=
  match c.connErr with
  | some e => { ret := (0, some e), calls := 0, copies := 0, closes := 0, st := c }
  | none =>
    match drv with
    | Except.error e => { ret := (0, some e), calls := 1, copies := 1, closes := 1, st := c }
    | Except.ok info => { ret := (info.Removed, none), calls := 1, copies := 1, closes := 1, st := c }

/-- `Client.FindAndModify` from `src/unnamed/part_000`: applies an mgo
`Change{Update, Upsert, ReturnNew}` and returns `info.Updated` on
success, 0 alongside any error. -/
def Client.FindAndModify (c : Client) (database collection : String)
    (selector update : GoMap) (upsert : Bool) (drv : Except Err ChangeInfo) :
    FRes Client (Int × Option Err) :=
  match c.connErr with
  | some e => { ret := (0, some e), calls := 0, copies := 0, closes := 0, st := c }
  | none =>
    match drv with
    | Except.error e => { ret := (0, some e), calls := 1, copies := 1, closes := 1, st := c }
    | Except.ok info => { ret := (info.Updated, none), calls := 1, copies := 1, closes := 1, st := c }

/-- `Client.FindAndRemove` from `src/unnamed/part_000`: applies an mgo
`Change{Remove: true}` and returns `info.Removed` on success. -/
def Client.FindAndRemove (c : Client) (database collection : String)
    (selector : GoMap) (drv : Except Err ChangeInfo) : FRes Client (Int × Option Err) :=
  match c.connErr with
  | some e => { ret := (0, some e), calls := 0, copies := 0, closes := 0, st := c }
  | none =>
    match drv with
    | Except.error e => { ret := (0, some e), calls := 1, copies := 1, closes := 1, st := c }
    | Except.ok info => { ret := (info.Removed, none), calls := 1, copies := 1, closes := 1, st := c }

/-- `Client.GetPipeRow` from `src/unnamed/part_000`. -/
def Client.GetPipeRow (c : Client) (database collection : String) (pipeline : List GoMap)
    (drv : Option Err) : FRes Client (Option Err) :=
  match c.connErr with
  | some e => { ret := some e, calls := 0, copies := 0, closes := 0, st := c }
  | none => { ret := drv, calls := 1, copies := 1, closes := 1, st := c }

/-- `Client.GetPipeResult` from `src/unnamed/part_000`. -/
def Client.GetPipeResult (c : Client) (database collection : String) (pipeline : List GoMap)
    (drv : Option Err) : FRes Client (Option Err) :=
  match c.connErr with
  | some e => { ret := some e, calls := 0, copies := 0, closes := 0, st := c }
  | none => { ret := drv, calls := 1, copies := 1, closes := 1, st := c }

end StructV

/- ------------------------------------------------------------------ -/
/- Global-session variant, `src/mongo.go`.  The sticky error is the
   package-level `connErr`, modelled as `State`; facade methods read it
   and never write it. -/

namespace GlobalV

/-- The package-level mutable state of `src/mongo.go`: the global
`connErr` variable. -/
structure State where
  connErr : Option Err
deriving DecidableEq, Repr

/-- `Client` from `src/mongo.go`: only the session. -/
structure Client where
  session : Option Session
deriving DecidableEq, Repr

/-- `Conn` from `src/mongo.go`: on dial failure it panics, the deferred
`recover` stores the raw dial error in the global `connErr`, and the
function returns the zero value `nil` for `*Client` (`none` here); on
success it resets `connErr` to nil and sets the 24-hour socket
timeout. -/
def Conn (dialRes : Option Err) (g : State) : State × Option Client :=
  match dialRes with
  | some e => ({ connErr := some e }, none)
  | none => ({ connErr := none }, some { session := some { socketTimeout := socketTimeout24h } })

/-- `Ping` from `src/mongo.go`: returns the global `connErr`
unconditionally; no session copy and no server round trip. -/
def Ping (g : State) : FRes State (Option Err) :=
  { ret := g.connErr, calls := 0, copies := 0, closes := 0, st := g }

/-- `Client.GetRow` from `src/mongo.go`. -/
def Client.GetRow (g : State) (c : Client) (database collection : String) (query : GoMap)
    (drv : Option Err) : FRes State (Option Err) :=
  match g.connErr with
  | some e => { ret := some e, calls := 0, copies := 0, closes := 0, st := g }
  | none => { ret := drv, calls := 1, copies := 1, closes := 1, st := g }

/-- `Client.GetResult` from `src/mongo.go` (option handling identical to
the per-client variant). -/
def Client.GetResult (g : State) (c : Client) (database collection : String)
    (query fields options : GoMap) (drv : Option Err) :
    FRes State (Option Err × FindOpts) :=
  match g.connErr with
  | some e =>
    { ret := (some e, { sort := none, limit := none, skip := none }),
      calls := 0, copies := 0, closes := 0, st := g }
  | none =>
    { ret := (drv, StructV.buildFindOpts options), calls := 1, copies := 1, closes := 1, st := g }

/-- `Client.GetCount` from `src/mongo.go`. -/
def Client.GetCount (g : State) (c : Client) (database collection : String) (query : GoMap)
    (drv : Int × Option Err) : FRes State (Int × Option Err) :=
  match g.connErr with
  | some e => { ret := (0, some e), calls := 0, copies := 0, closes := 0, st := g }
  | none => { ret := drv, calls := 1, copies := 1, closes := 1, st := g }

/-- `Client.Insert` from `src/mongo.go`. -/
def Client.Insert (g : State) (c : Client) (database collection : String) (docs : List GoVal)
    (drv : Option Err) : FRes State (Option Err) :=
  match g.connErr with
  | some e => { ret := some e, calls := 0, copies := 0, closes := 0, st := g }
  | none => { ret := drv, calls := 1, copies := 1, closes := 1, st := g }

/-- `Client.Update` from `src/mongo.go`. -/
def Client.Update (g : State) (c : Client) (database collection : String)
    (selector update : GoMap) (drv : Option Err) : FRes State (Option Err) :=
  match g.connErr with
  | some e => { ret := some e, calls := 0, copies := 0, closes := 0, st := g }
  | none => { ret := drv, calls := 1, copies := 1, closes := 1, st := g }

/-- `Client.UpdateAll` from `src/mongo.go`. -/
def Client.UpdateAll (g : State) (c : Client) (database collection : String)
    (selector update : GoMap) (drv : Except Err ChangeInfo) :
    FRes State (Option GoMap × Option Err) :=
  match g.connErr with
  | some e => { ret := (some [], some e), calls := 0, copies := 0, closes := 0, st := g }
  | none =>
    match drv with
    | Except.error e => { ret := (none, some e), calls := 1, copies := 1, closes := 1, st := g }
    | Except.ok info =>
      { ret := (some (StructV.changeInfoMap info), none), calls := 1, copies := 1, closes := 1, st := g }

/-- `Client.Upsert` from `src/mongo.go`. -/
def Client.Upsert (g : State) (c : Client) (database collection : String)
    (selector update : GoMap) (drv : Except Err ChangeInfo) :
    FRes State (Option GoMap × Option Err) :=
  match g.connErr with
  | some e => { ret := (some [], some e), calls := 0, copies := 0, closes := 0, st := g }
  | none =>
    match drv with
    | Except.error e => { ret := (none, some e), calls := 1, copies := 1, closes := 1, st := g }
    | Except.ok info =>
      { ret := (some (StructV.changeInfoMap info), none), calls := 1, copies := 1, closes := 1, st := g }

/-- `Client.Remove` from `src/mongo.go`. -/
def Client.Remove (g : State) (c : Client) (database collection : String) (selector : GoMap)
    (drv : Option Err) : FRes State (Option Err) :=
  match g.connErr with
  | some e => { ret := some e, calls := 0, copies := 0, closes := 0, st := g }
  | none => { ret := drv, calls := 1, copies := 1, closes := 1, st := g }

/-- `Client.RemoveAll` from `src/mongo.go`. -/
def Client.RemoveAll (g : State) (c : Client) (database collection : String) (selector : GoMap)
    (drv : Except Err ChangeInfo) : FRes State (Int × Option Err) :=
  match g.connErr with
  | some e => { ret := (0, some e), calls := 0, copies := 0, closes := 0, st := g }
  | none =>
    match drv with
    | Except.error e => { ret := (0, some e), calls := 1, copies := 1, closes := 1, st := g }
    | Except.ok info => { ret := (info.Removed, none), calls := 1, copies := 1, closes := 1, st := g }

/-- `Client.FindAndModify` from `src/mongo.go`. -/
def Client.FindAndModify (g : State) (c : Client) (database collection : String)
    (selector update : GoMap) (upsert : Bool) (drv : Except Err ChangeInfo) :
    FRes State (Int × Option Err) :=
  match g.connErr with
  | some e => { ret := (0, some e), calls := 0, copies := 0, closes := 0, st := g }
  | none =>
    match drv with
    | Except.error e => { ret := (0, some e), calls := 1, copies := 1, closes := 1, st := g }
    | Except.ok info => { ret := (info.Updated, none), calls := 1, copies := 1, closes := 1, st := g }

/-- `Client.FindAndRemove` from `src/mongo.go`. -/
def Client.FindAndRemove (g : State) (c : Client) (database collection : String)
    (selector : GoMap) (drv : Except Err ChangeInfo) : FRes State (Int × Option Err) :=
  match g.connErr with
  | some e => { ret := (0, some e), calls := 0, copies := 0, closes := 0, st := g }
  | none =>
    match drv with
    | Except.error e => { ret := (0, some e), calls := 1, copies := 1, closes := 1, st := g }
    | Except.ok info => { ret := (info.Removed, none), calls := 1, copies := 1, closes := 1, st := g }

/-- `Client.GetPipeRow` from `src/mongo.go`. -/
def Client.GetPipeRow (g : State) (c : Client) (database collection : String)
    (pipeline : List GoMap) (drv : Option Err) : FRes State (Option Err) :=
  match g.connErr with
  | some e => { ret := some e, calls := 0, copies := 0, closes := 0, st := g }
  | none => { ret := drv, calls := 1, copies := 1, closes := 1, st := g }

/-- `Client.GetPipeResult` from `src/mongo.go`. -/
def Client.GetPipeResult (g : State) (c : Client) (database collection : String)
    (pipeline : List GoMap) (drv : Option Err) : FRes State (Option Err) :=
  match g.connErr with
  | some e => { ret := some e, calls := 0, copies := 0, closes := 0, st := g }
  | none => { ret := drv, calls := 1, copies := 1, closes := 1, st := g }

end GlobalV

/-- A character is a lowercase hex digit (`0-9` or `a-f`). -/
def isLowerHexChar (c : Char) : Bool :=
  (('0' ≤ c) && (c ≤ '9')) || (('a' ≤ c) && (c ≤ 'f'))

/-- A character standard hex decoding accepts (`0-9`, `a-f`, `A-F`). -/
def isHexChar (c : Char) : Bool :=
  (decodeHexDigit c).isSome

/- Supporting lemmas for the hex codec. -/

theorem decodeHexDigit_hexDigit : ∀ n : Nat, n < 16 → decodeHexDigit (hexDigit n) = some n := by
  decide

theorem hexDigit_isLower : ∀ n : Nat, n < 16 → isLowerHexChar (hexDigit n) = true := by
  decide

theorem hexDecode_hexEncode (bs : List Nat) (hb : ∀ b ∈ bs, b < 256) :
    hexDecodeList (hexEncode bs).data = some bs := by
  induction bs with
  | nil => rfl
  | cons b rest ih =>
    have hblt : b < 256 := hb b (List.mem_cons_self b rest)
    have hdiv : b / 16 < 16 := Nat.div_lt_of_lt_mul hblt
    have hmod : b % 16 < 16 := Nat.mod_lt b (by norm_num)
    have hrest : hexDecodeList (hexEncode rest).data = some rest :=
      ih (fun x hx => hb x (List.mem_cons_of_mem b hx))
    have hrest2 : hexDecodeList ((rest.map byteToHex).flatten) = some rest := hrest
    show hexDecodeList (byteToHex b ++ (rest.map byteToHex).flatten) = some (b :: rest)
    simp [byteToHex, hexDecodeList, decodeHexDigit_hexDigit _ hdiv,
      decodeHexDigit_hexDigit _ hmod, hrest2, Nat.div_add_mod]

theorem hexEncode_length (bs : List Nat) : (hexEncode bs).length = 2 * bs.length := by
  induction bs with
  | nil => rfl
  | cons b rest ih =>
    show (byteToHex b ++ (rest.map byteToHex).flatten).length = 2 * (rest.length + 1)
    have : ((rest.map byteToHex).flatten).length = 2 * rest.length := ih
    simp [byteToHex, this]
    ring

theorem hexEncode_chars (bs : List Nat) (hb : ∀ b ∈ bs, b < 256) :
    ∀ c ∈ (hexEncode bs).data, isLowerHexChar c = true := by
  induction bs with
  | nil => intro c hc; simp [hexEncode] at hc
  | cons b rest ih =>
    intro c hc
    have hblt : b < 256 := hb b (List.mem_cons_self b rest)
    have hdiv : b / 16 < 16 := Nat.div_lt_of_lt_mul hblt
    have hmod : b % 16 < 16 := Nat.mod_lt b (by norm_num)
    have hc2 : c ∈ byteToHex b ++ (rest.map byteToHex).flatten := hc
    rcases List.mem_append.mp hc2 with h | h
    · simp only [byteToHex, List.mem_cons, List.not_mem_nil, or_false] at h
      rcases h with h | h
      · exact h ▸ hexDigit_isLower _ hdiv
      · exact h ▸ hexDigit_isLower _ hmod
    · exact ih (fun x hx => hb x (List.mem_cons_of_mem b hx)) c h

theorem hexDecodeList_isSome :
    ∀ l : List Char, (hexDecodeList l).isSome = true ↔
      (l.length % 2 = 0 ∧ ∀ c ∈ l, isHexChar c = true)
  | [] => by simp [hexDecodeList]
  | [c] => by simp [hexDecodeList]
  | c₁ :: c₂ :: rest => by
    have ih := hexDecodeList_isSome rest
    constructor
    · intro h
      simp only [hexDecodeList] at h
      cases h1 : decodeHexDigit c₁ with
      | none => rw [h1] at h; simp at h
      | some a =>
        cases h2 : decodeHexDigit c₂ with
        | none => rw [h1, h2] at h; simp at h
        | some b =>
          cases h3 : hexDecodeList rest with
          | none => rw [h1, h2, h3] at h; simp at h
          | some bs =>
            have hrest := ih.mp (by rw [h3]; rfl)
            refine ⟨by have h4 := hrest.1; simp only [List.length_cons]; omega, ?_⟩
            intro c hc
            rcases List.mem_cons.mp hc with h | h
            · subst h; simp [isHexChar, h1]
            · rcases List.mem_cons.mp h with h | h
              · subst h; simp [isHexChar, h2]
              · exact hrest.2 c h
    · rintro ⟨hlen, hall⟩
      have h1 : isHexChar c₁ = true := hall c₁ (by simp)
      have h2 : isHexChar c₂ = true := hall c₂ (by simp)
      have hrest : (hexDecodeList rest).isSome = true := by
        refine ih.mpr ⟨by simp only [List.length_cons] at hlen; omega, ?_⟩
        intro c hc
        exact hall c (List.mem_cons_of_mem _ (List.mem_cons_of_mem _ hc))
      simp only [isHexChar, Option.isSome] at h1 h2 hrest
      simp only [hexDecodeList]
      cases hd1 : decodeHexDigit c₁ with
      | none => rw [hd1] at h1; simp at h1
      | some a =>
        cases hd2 : decodeHexDigit c₂ with
        | none => rw [hd2] at h2; simp at h2
        | some b =>
          cases hd3 : hexDecodeList rest with
          | none => rw [hd3] at hrest; simp at hrest
          | some bs => rfl

theorem hexDecodeList_length :
    ∀ (l : List Char) (d : List Nat), hexDecodeList l = some d → 2 * d.length = l.length
  | [], d, h => by simp [hexDecodeList] at h; simp [← h]
  | [c], d, h => by simp [hexDecodeList] at h
  | c₁ :: c₂ :: rest, d, h => by
    simp only [hexDecodeList] at h
    cases h1 : decodeHexDigit c₁ with
    | none => rw [h1] at h; simp at h
    | some a =>
      cases h2 : decodeHexDigit c₂ with
      | none => rw [h1, h2] at h; simp at h
      | some b =>
        cases h3 : hexDecodeList rest with
        | none => rw [h1, h2, h3] at h; simp at h
        | some bs =>
          rw [h1, h2, h3] at h
          have hrec := hexDecodeList_length rest bs h3
          simp only [Option.some.injEq] at h
          subst h
          simp only [List.length_cons]
          omega

/- ------------------------------------------------------------------ -/
/- Claim theorems. -/

/-- C3: for every 12-byte identifier, parsing the hexadecimal rendering
yields the identifier back (`ObjectIDHex (Hex id) = ok id`); `Hex` is a
deterministic (it is a function) encoding into 24 lowercase hex
characters, and it is injective on 12-byte identifiers. -/
theorem C3_hex_roundtrip (id : ObjectID) (hlen : id.length = 12)
    (hb : ∀ b ∈ id, b < 256) :
    ObjectIDHex (Hex id) = Except.ok id ∧
    (Hex id).length = 24 ∧
    (∀ c ∈ (Hex id).data, isLowerHexChar c = true) ∧
    (∀ id₂ : ObjectID, id₂.length = 12 → (∀ b ∈ id₂, b < 256) →
      Hex id = Hex id₂ → id = id₂) := by
  have hrt : ∀ x : ObjectID, x.length = 12 → (∀ b ∈ x, b < 256) →
      ObjectIDHex (Hex x) = Except.ok x := by
    intro x hx hbx
    simp [ObjectIDHex, Hex, hexDecode_hexEncode x hbx, hx]
  refine ⟨hrt id hlen hb, ?_, hexEncode_chars id hb, ?_⟩
  · rw [Hex, hexEncode_length, hlen]
  · intro id₂ h2 hb2 heq
    have h₁ := hrt id hlen hb
    have h₂ := hrt id₂ h2 hb2
    rw [heq] at h₁
    rw [h₂] at h₁
    exact (Except.ok.inj h₁).symm

/-- Witness for C3 at a concrete 12-byte identifier. -/
theorem C3_hex_roundtrip_witness :
    ObjectIDHex (Hex [0, 1, 2, 3, 4, 5, 6, 7, 8, 9, 254, 255]) =
      Except.ok [0, 1, 2, 3, 4, 5, 6, 7, 8, 9, 254, 255] :=
  (C3_hex_roundtrip [0, 1, 2, 3, 4, 5, 6, 7, 8, 9, 254, 255] (by decide) (by decide)).1

/-- C4: `IsObjectIdHex s` is true iff `s` has length 24, consists only
of hex digits, and `ObjectIDHex s` succeeds; it is a total boolean
function (never raises). -/
theorem C4_isObjectIdHex_iff (s : String) :
    (IsObjectIdHex s = true ↔
      (s.length = 24 ∧ (∀ c ∈ s.data, isHexChar c = true) ∧ (ObjectIDHex s).isOk = true)) ∧
    (IsObjectIdHex s = true ∨ IsObjectIdHex s = false) := by
  have hsd : s.data.length = s.length := rfl
  constructor
  · constructor
    · intro h
      simp only [IsObjectIdHex, Bool.and_eq_true, beq_iff_eq] at h
      obtain ⟨hlen, hsome⟩ := h
      obtain ⟨d, hd⟩ := Option.isSome_iff_exists.mp hsome
      have hall := (hexDecodeList_isSome s.data).mp hsome
      have hdl : 2 * d.length = s.data.length := hexDecodeList_length s.data d hd
      have hd12 : d.length = 12 := by omega
      refine ⟨hlen, hall.2, ?_⟩
      simp [ObjectIDHex, hd, hd12, Except.isOk, Except.toBool]
    · rintro ⟨hlen, hall, hok⟩
      simp only [IsObjectIdHex, Bool.and_eq_true, beq_iff_eq]
      exact ⟨hlen, (hexDecodeList_isSome s.data).mpr ⟨by omega, hall⟩⟩
  · cases h : IsObjectIdHex s
    · exact Or.inr rfl
    · exact Or.inl rfl

/-- Witness for C4 at a concrete valid 24-character hex string. -/
theorem C4_isObjectIdHex_iff_witness :
    (ObjectIDHex "0123456789abcdef01234567").isOk = true :=
  (((C4_isObjectIdHex_iff "0123456789abcdef01234567").1.mp (by decide))).2.2

/-- C7: whenever `IsObjectIdHex s` is false, `ObjectIDHex s` does not
return an identifier but signals the invalid-format failure (modelling
the reference behavior's abort with the panic message). -/
theorem C7_objectIdHex_invalid (s : String) (h : IsObjectIdHex s = false) :
    ObjectIDHex s = Except.error ("invalid input to ObjectIdHex: " ++ s) := by
  cases hd : hexDecodeList s.data with
  | none => simp [ObjectIDHex, hd]
  | some d =>
    have hsome : (hexDecodeList s.data).isSome = true := by rw [hd]; rfl
    simp only [IsObjectIdHex, hsome, Bool.and_true, beq_iff_eq] at h
    have h24 : s.length ≠ 24 := by simpa using h
    have hdl : 2 * d.length = s.data.length := hexDecodeList_length s.data d hd
    have hsd : s.data.length = s.length := rfl
    have hne : d.length ≠ 12 := by omega
    simp [ObjectIDHex, hd, hne]

/-- Witness for C7 at a concrete malformed string. -/
theorem C7_objectIdHex_invalid_witness :
    IsObjectIdHex "zz" = false ∧
      ObjectIDHex "zz" = Except.error ("invalid input to ObjectIdHex: " ++ "zz") :=
  ⟨by decide, C7_objectIdHex_invalid "zz" (by decide)⟩

/- Option-handling lemmas for `GetResult`. -/

theorem applySort_sort (options : GoMap) (f : FindOpts) (hf : f.sort = none) :
    (StructV.applySort options f).sort = asSort (lookupGo options "Sort") := by
  unfold StructV.applySort
  split
  · cases h : asSort (lookupGo options "Sort") <;> simp [h, hf]
  · rename_i hg
    have : lookupGo options "Sort" = GoVal.vStr "" := by
      by_contra hne
      exact hg hne
    simp [this, asSort, hf]

theorem applySort_limit (options : GoMap) (f : FindOpts) :
    (StructV.applySort options f).limit = f.limit := by
  unfold StructV.applySort
  split
  · cases h : asSort (lookupGo options "Sort") <;> simp [h]
  · rfl

theorem applySort_skip (options : GoMap) (f : FindOpts) :
    (StructV.applySort options f).skip = f.skip := by
  unfold StructV.applySort
  split
  · cases h : asSort (lookupGo options "Sort") <;> simp [h]
  · rfl

theorem applyLimit_limit (options : GoMap) (f : FindOpts) (hf : f.limit = none) :
    (StructV.applyLimit options f).limit = asInt (lookupGo options "Limit") := by
  unfold StructV.applyLimit
  split
  · cases h : asInt (lookupGo options "Limit") <;> simp [h, hf]
  · rename_i hg
    have : lookupGo options "Limit" = GoVal.vStr "" := by
      by_contra hne
      exact hg hne
    simp [this, asInt, hf]

theorem applyLimit_sort (options : GoMap) (f : FindOpts) :
    (StructV.applyLimit options f).sort = f.sort := by
  unfold StructV.applyLimit
  split
  · cases h : asInt (lookupGo options "Limit") <;> simp [h]
  · rfl

theorem applyLimit_skip (options : GoMap) (f : FindOpts) :
    (StructV.applyLimit options f).skip = f.skip := by
  unfold StructV.applyLimit
  split
  · cases h : asInt (lookupGo options "Limit") <;> simp [h]
  · rfl

theorem applySkip_skip (options : GoMap) (f : FindOpts) (hf : f.skip = none) :
    (StructV.applySkip options f).skip = asInt (lookupGo options "Skip") := by
  unfold StructV.applySkip
  split
  · cases h : asInt (lookupGo options "Skip") <;> simp [h, hf]
  · rename_i hg
    have : lookupGo options "Skip" = GoVal.vStr "" := by
      by_contra hne
      exact hg hne
    simp [this, asInt, hf]

theorem applySkip_sort (options : GoMap) (f : FindOpts) :
    (StructV.applySkip options f).sort = f.sort := by
  unfold StructV.applySkip
  split
  · cases h : asInt (lookupGo options "Skip") <;> simp [h]
  · rfl

theorem applySkip_limit (options : GoMap) (f : FindOpts) :
    (StructV.applySkip options f).limit = f.limit := by
  unfold StructV.applySkip
  split
  · cases h : asInt (lookupGo options "Skip") <;> simp [h]
  · rfl

theorem buildFindOpts_spec (options : GoMap) :
    (StructV.buildFindOpts options).sort = asSort (lookupGo options "Sort") ∧
    (StructV.buildFindOpts options).limit = asInt (lookupGo options "Limit") ∧
    (StructV.buildFindOpts options).skip = asInt (lookupGo options "Skip") := by
  unfold StructV.buildFindOpts
  refine ⟨?_, ?_, ?_⟩
  · rw [applySkip_sort, applyLimit_sort, applySort_sort]
    rfl
  · rw [applySkip_limit, applyLimit_limit]
    rw [applySort_limit]
  · rw [applySkip_skip]
    rw [applyLimit_skip, applySort_skip]

/-- C5: when dialing fails, the per-client `Conn` still returns a handle
(the embedding is a total function) whose sticky error wraps the host
portion of the address together with the underlying error message, and
it holds no session; the global variant instead records the (raw) dial
error in the process-wide state and returns a nil handle; on success
both variants hold a session whose socket timeout is 24 hours and no
sticky error. -/
theorem C5_conn_failure_handling (host msg : String) (g : GlobalV.State) :
    ((StructV.Conn host (some msg)).connErr = some (connFailMsg host msg) ∧
      (StructV.Conn host (some msg)).session = none) ∧
    ((StructV.Conn host none).connErr = none ∧
      (StructV.Conn host none).session = some { socketTimeout := socketTimeout24h } ∧
      (StructV.Conn host none).host = host) ∧
    ((GlobalV.Conn (some msg) g).1.connErr = some msg ∧
      (GlobalV.Conn (some msg) g).2 = none) ∧
    ((GlobalV.Conn none g).1.connErr = none ∧
      (GlobalV.Conn none g).2 =
        some { session := some { socketTimeout := socketTimeout24h } }) :=
  ⟨⟨rfl, rfl⟩, ⟨rfl, rfl, rfl⟩, ⟨rfl, rfl⟩, ⟨rfl, rfl⟩⟩

/-- Witness for C5 at a concrete host, dial error and global state. -/
theorem C5_conn_failure_handling_witness :
    (StructV.Conn "db.example:27017" (some "no reachable servers")).connErr =
      some (connFailMsg "db.example:27017" "no reachable servers") :=
  (C5_conn_failure_handling "db.example:27017" "no reachable servers" { connErr := none }).1.1

/-- C6 counterexample: the claim requires Ping, when the sticky error is
unset, to copy the session and perform a liveness check; the
global-variant `Ping` of `src/mongo.go` makes no session copy and no
driver call at all and returns nil unconditionally. -/
theorem C6_global_ping_counterexample :
    (GlobalV.Ping { connErr := none }).ret = none ∧
    (GlobalV.Ping { connErr := none }).calls = 0 ∧
    (GlobalV.Ping { connErr := none }).copies = 0 :=
  ⟨rfl, rfl, rfl⟩

/-- C6 (amended): the per-client `Ping` returns the sticky error
immediately when set; otherwise it copies the session once, performs one
liveness check, records a host-wrapped sticky error when the check
fails, releases the copy, and returns the possibly-new sticky error.
The global-variant `Ping` merely returns the process-wide cached error
and performs no session copy or liveness check. -/
theorem C6_ping_behavior :
    (∀ (c : StructV.Client) (e : Err) (p : Option Err), c.connErr = some e →
      StructV.Client.Ping c p =
        { ret := some e, calls := 0, copies := 0, closes := 0, st := c }) ∧
    (∀ c : StructV.Client, c.connErr = none →
      (StructV.Client.Ping c none =
        { ret := none, calls := 1, copies := 1, closes := 1, st := c }) ∧
      (∀ e : Err, StructV.Client.Ping c (some e) =
        { ret := some (connFailMsg c.host e), calls := 1, copies := 1, closes := 1,
          st := { c with connErr := some (connFailMsg c.host e) } })) ∧
    (∀ g : GlobalV.State, GlobalV.Ping g =
      { ret := g.connErr, calls := 0, copies := 0, closes := 0, st := g }) := by
  refine ⟨?_, ?_, fun g => rfl⟩
  · intro c e p h
    simp [StructV.Client.Ping, h]
  · intro c h
    constructor
    · simp [StructV.Client.Ping, h]
    · intro e
      simp [StructV.Client.Ping, h]

/-- Witness for C6 at a concrete sticky client. -/
theorem C6_ping_behavior_witness :
    StructV.Client.Ping { host := "h", session := none, connErr := some "boom" } none =
      { ret := some "boom", calls := 0, copies := 0, closes := 0,
        st := { host := "h", session := none, connErr := some "boom" } } :=
  C6_ping_behavior.1 { host := "h", session := none, connErr := some "boom" } "boom" none rfl

/-- C8: in `GetResult` (both variants), each of Sort, Limit and Skip is
applied exactly when the key is present with the expected dynamic type
(`asSort`/`asInt` of the map lookup), and the returned error is exactly
the driver response — absent or mistyped option entries never surface an
error.  The `!= ""` guards in the source are no-ops for correctly typed
values since a `Sort` or `int` slot never equals a string. -/
theorem C8_getresult_options (c : StructV.Client) (hc : c.connErr = none)
    (g : GlobalV.State) (hg : g.connErr = none) (cg : GlobalV.Client)
    (database collection : String) (query fields options : GoMap) (drv : Option Err) :
    ((StructV.Client.GetResult c database collection query fields options drv).ret.1 = drv ∧
      (StructV.Client.GetResult c database collection query fields options drv).ret.2.sort =
        asSort (lookupGo options "Sort") ∧
      (StructV.Client.GetResult c database collection query fields options drv).ret.2.limit =
        asInt (lookupGo options "Limit") ∧
      (StructV.Client.GetResult c database collection query fields options drv).ret.2.skip =
        asInt (lookupGo options "Skip")) ∧
    ((GlobalV.Client.GetResult g cg database collection query fields options drv).ret.1 = drv ∧
      (GlobalV.Client.GetResult g cg database collection query fields options drv).ret.2.sort =
        asSort (lookupGo options "Sort") ∧
      (GlobalV.Client.GetResult g cg database collection query fields options drv).ret.2.limit =
        asInt (lookupGo options "Limit") ∧
      (GlobalV.Client.GetResult g cg database collection query fields options drv).ret.2.skip =
        asInt (lookupGo options "Skip")) := by
  obtain ⟨h₁, h₂, h₃⟩ := buildFindOpts_spec options
  constructor
  · simp [StructV.Client.GetResult, hc, h₁, h₂, h₃]
  · simp [GlobalV.Client.GetResult, hg, h₁, h₂, h₃]

/-- Witness for C8 at a concrete client and options map holding a Sort,
a mistyped Limit, and no Skip. -/
theorem C8_getresult_options_witness :
    (StructV.Client.GetResult { host := "h", session := none, connErr := none }
        "db" "col" [] []
        [("Sort", GoVal.vSort ["-age"]), ("Limit", GoVal.vStr "2")] none).ret.2.sort =
      asSort (lookupGo [("Sort", GoVal.vSort ["-age"]), ("Limit", GoVal.vStr "2")] "Sort") :=
  (C8_getresult_options { host := "h", session := none, connErr := none } rfl
      { connErr := none } rfl { session := none }
      "db" "col" [] [] [("Sort", GoVal.vSort ["-age"]), ("Limit", GoVal.vStr "2")] none).1.2.1

/-- C9: for `UpdateAll` and `Upsert` (both variants), the returned map
is nil (`none`) exactly on a driver error; a sticky connection error
short-circuit yields the empty non-nil map; driver success yields the
map with exactly the keys Matched, Updated, UpsertedId. -/
theorem C9_updateall_upsert_map :
    (∀ info : ChangeInfo,
      (StructV.changeInfoMap info).map Prod.fst = ["Matched", "Updated", "UpsertedId"]) ∧
    (∀ (c : StructV.Client) (db col : String) (sel upd : GoMap) (drv : Except Err ChangeInfo),
      (∀ e, c.connErr = some e →
        (StructV.Client.UpdateAll c db col sel upd drv).ret = (some [], some e) ∧
        (StructV.Client.Upsert c db col sel upd drv).ret = (some [], some e)) ∧
      (c.connErr = none →
        (∀ e, drv = Except.error e →
          (StructV.Client.UpdateAll c db col sel upd drv).ret = (none, some e) ∧
          (StructV.Client.Upsert c db col sel upd drv).ret = (none, some e)) ∧
        (∀ info, drv = Except.ok info →
          (StructV.Client.UpdateAll c db col sel upd drv).ret =
            (some (StructV.changeInfoMap info), none) ∧
          (StructV.Client.Upsert c db col sel upd drv).ret =
            (some (StructV.changeInfoMap info), none)))) ∧
    (∀ (g : GlobalV.State) (cg : GlobalV.Client) (db col : String) (sel upd : GoMap)
        (drv : Except Err ChangeInfo),
      (∀ e, g.connErr = some e →
        (GlobalV.Client.UpdateAll g cg db col sel upd drv).ret = (some [], some e) ∧
        (GlobalV.Client.Upsert g cg db col sel upd drv).ret = (some [], some e)) ∧
      (g.connErr = none →
        (∀ e, drv = Except.error e →
          (GlobalV.Client.UpdateAll g cg db col sel upd drv).ret = (none, some e) ∧
          (GlobalV.Client.Upsert g cg db col sel upd drv).ret = (none, some e)) ∧
        (∀ info, drv = Except.ok info →
          (GlobalV.Client.UpdateAll g cg db col sel upd drv).ret =
            (some (StructV.changeInfoMap info), none) ∧
          (GlobalV.Client.Upsert g cg db col sel upd drv).ret =
            (some (StructV.changeInfoMap info), none)))) := by
  refine ⟨fun info => rfl, ?_, ?_⟩
  · intro c db col sel upd drv
    refine ⟨?_, ?_⟩
    · intro e he
      constructor <;> simp [StructV.Client.UpdateAll, StructV.Client.Upsert, he]
    · intro hc
      refine ⟨?_, ?_⟩
      · intro e hd
        subst hd
        constructor <;> simp [StructV.Client.UpdateAll, StructV.Client.Upsert, hc]
      · intro info hd
        subst hd
        constructor <;> simp [StructV.Client.UpdateAll, StructV.Client.Upsert, hc]
  · intro g cg db col sel upd drv
    refine ⟨?_, ?_⟩
    · intro e he
      constructor <;> simp [GlobalV.Client.UpdateAll, GlobalV.Client.Upsert, he]
    · intro hg
      refine ⟨?_, ?_⟩
      · intro e hd
        subst hd
        constructor <;> simp [GlobalV.Client.UpdateAll, GlobalV.Client.Upsert, hg]
      · intro info hd
        subst hd
        constructor <;> simp [GlobalV.Client.UpdateAll, GlobalV.Client.Upsert, hg]

/-- Witness for C9: the sticky short-circuit of `UpdateAll` returns the
empty non-nil map with the cached error. -/
theorem C9_updateall_upsert_map_witness :
    (StructV.Client.UpdateAll { host := "h", session := none, connErr := some "boom" }
        "db" "col" [] [] (Except.error "x")).ret = (some [], some "boom") :=
  ((C9_updateall_upsert_map.2.1 { host := "h", session := none, connErr := some "boom" }
      "db" "col" [] [] (Except.error "x")).1 "boom" rfl).1

/-- C10: for `RemoveAll`, `FindAndModify` and `FindAndRemove` (both
variants), a non-nil returned error — sticky or from the driver — comes
with count exactly 0; contrapositively a non-zero count only occurs
with a nil error. -/
theorem C10_count_zero_on_error :
    (∀ (c : StructV.Client) (db col : String) (sel : GoMap) (drv : Except Err ChangeInfo),
      ((StructV.Client.RemoveAll c db col sel drv).ret.2 ≠ none →
        (StructV.Client.RemoveAll c db col sel drv).ret.1 = 0) ∧
      ((StructV.Client.FindAndRemove c db col sel drv).ret.2 ≠ none →
        (StructV.Client.FindAndRemove c db col sel drv).ret.1 = 0)) ∧
    (∀ (c : StructV.Client) (db col : String) (sel upd : GoMap) (upsert : Bool)
        (drv : Except Err ChangeInfo),
      (StructV.Client.FindAndModify c db col sel upd upsert drv).ret.2 ≠ none →
      (StructV.Client.FindAndModify c db col sel upd upsert drv).ret.1 = 0) ∧
    (∀ (g : GlobalV.State) (cg : GlobalV.Client) (db col : String) (sel : GoMap)
        (drv : Except Err ChangeInfo),
      ((GlobalV.Client.RemoveAll g cg db col sel drv).ret.2 ≠ none →
        (GlobalV.Client.RemoveAll g cg db col sel drv).ret.1 = 0) ∧
      ((GlobalV.Client.FindAndRemove g cg db col sel drv).ret.2 ≠ none →
        (GlobalV.Client.FindAndRemove g cg db col sel drv).ret.1 = 0)) ∧
    (∀ (g : GlobalV.State) (cg : GlobalV.Client) (db col : String) (sel upd : GoMap)
        (upsert : Bool) (drv : Except Err ChangeInfo),
      (GlobalV.Client.FindAndModify g cg db col sel upd upsert drv).ret.2 ≠ none →
      (GlobalV.Client.FindAndModify g cg db col sel upd upsert drv).ret.1 = 0) := by
  refine ⟨?_, ?_, ?_, ?_⟩
  · intro c db col sel drv
    constructor
    · intro h
      cases hc : c.connErr <;> cases drv <;>
        simp_all [StructV.Client.RemoveAll]
    · intro h
      cases hc : c.connErr <;> cases drv <;>
        simp_all [StructV.Client.FindAndRemove]
  · intro c db col sel upd upsert drv h
    cases hc : c.connErr <;> cases drv <;>
      simp_all [StructV.Client.FindAndModify]
  · intro g cg db col sel drv
    constructor
    · intro h
      cases hg : g.connErr <;> cases drv <;>
        simp_all [GlobalV.Client.RemoveAll]
    · intro h
      cases hg : g.connErr <;> cases drv <;>
        simp_all [GlobalV.Client.FindAndRemove]
  · intro g cg db col sel upd upsert drv h
    cases hg : g.connErr <;> cases drv <;>
      simp_all [GlobalV.Client.FindAndModify]

/-- Witness for C10: a sticky `RemoveAll` error comes with count 0. -/
theorem C10_count_zero_on_error_witness :
    (StructV.Client.RemoveAll { host := "h", session := none, connErr := some "boom" }
        "db" "col" []
        (Except.ok { Updated := 5, Removed := 5, Matched := 5, UpsertedId := GoVal.vNil })).ret.1
      = 0 :=
  (C10_count_zero_on_error.1 { host := "h", session := none, connErr := some "boom" }
      "db" "col" []
      (Except.ok { Updated := 5, Removed := 5, Matched := 5, UpsertedId := GoVal.vNil })).1
    (by decide)

/-- C1 counterexample: the claim promises a zero-valued result for the
return shape on a sticky short-circuit, but the Go zero value of a map
is nil (`none`), while `UpdateAll` (and `Upsert`) return the literal
empty non-nil map on the sticky path. -/
theorem C1_zero_value_counterexample :
    (StructV.Client.UpdateAll { host := "h", session := none, connErr := some "boom" }
        "db" "col" [] [] (Except.error "x")).ret.1 = some [] ∧
    some ([] : GoMap) ≠ (none : Option GoMap) :=
  ⟨rfl, by simp⟩

/-- C1 (amended): whenever the sticky connection error is set, every
facade method of both variants returns that cached error with a
zero-valued result for its return shape — except `UpdateAll` and
`Upsert`, which return the empty non-nil map — attempting no driver
operation; and no facade call ever modifies the sticky error (the state
after every call equals the state before, for every input). -/
theorem C1_sticky_error_short_circuit :
    (∀ (c : StructV.Client) (db col : String) (q : GoMap) (drv : Option Err),
      (StructV.Client.GetRow c db col q drv).st = c ∧
      ∀ e, c.connErr = some e →
        (StructV.Client.GetRow c db col q drv).ret = some e ∧
        (StructV.Client.GetRow c db col q drv).calls = 0) ∧
    (∀ (c : StructV.Client) (db col : String) (q f o : GoMap) (drv : Option Err),
      (StructV.Client.GetResult c db col q f o drv).st = c ∧
      ∀ e, c.connErr = some e →
        (StructV.Client.GetResult c db col q f o drv).ret.1 = some e ∧
        (StructV.Client.GetResult c db col q f o drv).calls = 0) ∧
    (∀ (c : StructV.Client) (db col : String) (q : GoMap) (drv : Int × Option Err),
      (StructV.Client.GetCount c db col q drv).st = c ∧
      ∀ e, c.connErr = some e →
        (StructV.Client.GetCount c db col q drv).ret = (0, some e) ∧
        (StructV.Client.GetCount c db col q drv).calls = 0) ∧
    (∀ (c : StructV.Client) (db col : String) (docs : List GoVal) (drv : Option Err),
      (StructV.Client.Insert c db col docs drv).st = c ∧
      ∀ e, c.connErr = some e →
        (StructV.Client.Insert c db col docs drv).ret = some e ∧
        (StructV.Client.Insert c db col docs drv).calls = 0) ∧
    (∀ (c : StructV.Client) (db col : String) (sel upd : GoMap) (drv : Option Err),
      (StructV.Client.Update c db col sel upd drv).st = c ∧
      ∀ e, c.connErr = some e →
        (StructV.Client.Update c db col sel upd drv).ret = some e ∧
        (StructV.Client.Update c db col sel upd drv).calls = 0) ∧
    (∀ (c : StructV.Client) (db col : String) (sel upd : GoMap) (drv : Except Err ChangeInfo),
      (StructV.Client.UpdateAll c db col sel upd drv).st = c ∧
      ∀ e, c.connErr = some e →
        (StructV.Client.UpdateAll c db col sel upd drv).ret = (some [], some e) ∧
        (StructV.Client.UpdateAll c db col sel upd drv).calls = 0) ∧
    (∀ (c : StructV.Client) (db col : String) (sel upd : GoMap) (drv : Except Err ChangeInfo),
      (StructV.Client.Upsert c db col sel upd drv).st = c ∧
      ∀ e, c.connErr = some e →
        (StructV.Client.Upsert c db col sel upd drv).ret = (some [], some e) ∧
        (StructV.Client.Upsert c db col sel upd drv).calls = 0) ∧
    (∀ (c : StructV.Client) (db col : String) (sel : GoMap) (drv : Option Err),
      (StructV.Client.Remove c db col sel drv).st = c ∧
      ∀ e, c.connErr = some e →
        (StructV.Client.Remove c db col sel drv).ret = some e ∧
        (StructV.Client.Remove c db col sel drv).calls = 0) ∧
    (∀ (c : StructV.Client) (db col : String) (sel : GoMap) (drv : Except Err ChangeInfo),
      (StructV.Client.RemoveAll c db col sel drv).st = c ∧
      ∀ e, c.connErr = some e →
        (StructV.Client.RemoveAll c db col sel drv).ret = (0, some e) ∧
        (StructV.Client.RemoveAll c db col sel drv).calls = 0) ∧
    (∀ (c : StructV.Client) (db col : String) (sel upd : GoMap) (upsert : Bool)
        (drv : Except Err ChangeInfo),
      (StructV.Client.FindAndModify c db col sel upd upsert drv).st = c ∧
      ∀ e, c.connErr = some e →
        (StructV.Client.FindAndModify c db col sel upd upsert drv).ret = (0, some e) ∧
        (StructV.Client.FindAndModify c db col sel upd upsert drv).calls = 0) ∧
    (∀ (c : StructV.Client) (db col : String) (sel : GoMap) (drv : Except Err ChangeInfo),
      (StructV.Client.FindAndRemove c db col sel drv).st = c ∧
      ∀ e, c.connErr = some e →
        (StructV.Client.FindAndRemove c db col sel drv).ret = (0, some e) ∧
        (StructV.Client.FindAndRemove c db col sel drv).calls = 0) ∧
    (∀ (c : StructV.Client) (db col : String) (p : List GoMap) (drv : Option Err),
      (StructV.Client.GetPipeRow c db col p drv).st = c ∧
      ∀ e, c.connErr = some e →
        (StructV.Client.GetPipeRow c db col p drv).ret = some e ∧
        (StructV.Client.GetPipeRow c db col p drv).calls = 0) ∧
    (∀ (c : StructV.Client) (db col : String) (p : List GoMap) (drv : Option Err),
      (StructV.Client.GetPipeResult c db col p drv).st = c ∧
      ∀ e, c.connErr = some e →
        (StructV.Client.GetPipeResult c db col p drv).ret = some e ∧
        (StructV.Client.GetPipeResult c db col p drv).calls = 0) ∧
    (∀ (g : GlobalV.State) (cg : GlobalV.Client) (db col : String) (q : GoMap)
        (drv : Option Err),
      (GlobalV.Client.GetRow g cg db col q drv).st = g ∧
      ∀ e, g.connErr = some e →
        (GlobalV.Client.GetRow g cg db col q drv).ret = some e ∧
        (GlobalV.Client.GetRow g cg db col q drv).calls = 0) ∧
    (∀ (g : GlobalV.State) (cg : GlobalV.Client) (db col : String) (q f o : GoMap)
        (drv : Option Err),
      (GlobalV.Client.GetResult g cg db col q f o drv).st = g ∧
      ∀ e, g.connErr = some e →
        (GlobalV.Client.GetResult g cg db col q f o drv).ret.1 = some e ∧
        (GlobalV.Client.GetResult g cg db col q f o drv).calls = 0) ∧
    (∀ (g : GlobalV.State) (cg : GlobalV.Client) (db col : String) (q : GoMap)
        (drv : Int × Option Err),
      (GlobalV.Client.GetCount g cg db col q drv).st = g ∧
      ∀ e, g.connErr = some e →
        (GlobalV.Client.GetCount g cg db col q drv).ret = (0, some e) ∧
        (GlobalV.Client.GetCount g cg db col q drv).calls = 0) ∧
    (∀ (g : GlobalV.State) (cg : GlobalV.Client) (db col : String) (docs : List GoVal)
        (drv : Option Err),
      (GlobalV.Client.Insert g cg db col docs drv).st = g ∧
      ∀ e, g.connErr = some e →
        (GlobalV.Client.Insert g cg db col docs drv).ret = some e ∧
        (GlobalV.Client.Insert g cg db col docs drv).calls = 0) ∧
    (∀ (g : GlobalV.State) (cg : GlobalV.Client) (db col : String) (sel upd : GoMap)
        (drv : Option Err),
      (GlobalV.Client.Update g cg db col sel upd drv).st = g ∧
      ∀ e, g.connErr = some e →
        (GlobalV.Client.Update g cg db col sel upd drv).ret = some e ∧
        (GlobalV.Client.Update g cg db col sel upd drv).calls = 0) ∧
    (∀ (g : GlobalV.State) (cg : GlobalV.Client) (db col : String) (sel upd : GoMap)
        (drv : Except Err ChangeInfo),
      (GlobalV.Client.UpdateAll g cg db col sel upd drv).st = g ∧
      ∀ e, g.connErr = some e →
        (GlobalV.Client.UpdateAll g cg db col sel upd drv).ret = (some [], some e) ∧
        (GlobalV.Client.UpdateAll g cg db col sel upd drv).calls = 0) ∧
    (∀ (g : GlobalV.State) (cg : GlobalV.Client) (db col : String) (sel upd : GoMap)
        (drv : Except Err ChangeInfo),
      (GlobalV.Client.Upsert g cg db col sel upd drv).st = g ∧
      ∀ e, g.connErr = some e →
        (GlobalV.Client.Upsert g cg db col sel upd drv).ret = (some [], some e) ∧
        (GlobalV.Client.Upsert g cg db col sel upd drv).calls = 0) ∧
    (∀ (g : GlobalV.State) (cg : GlobalV.Client) (db col : String) (sel : GoMap)
        (drv : Option Err),
      (GlobalV.Client.Remove g cg db col sel drv).st = g ∧
      ∀ e, g.connErr = some e →
        (GlobalV.Client.Remove g cg db col sel drv).ret = some e ∧
        (GlobalV.Client.Remove g cg db col sel drv).calls = 0) ∧
    (∀ (g : GlobalV.State) (cg : GlobalV.Client) (db col : String) (sel : GoMap)
        (drv : Except Err ChangeInfo),
      (GlobalV.Client.RemoveAll g cg db col sel drv).st = g ∧
      ∀ e, g.connErr = some e →
        (GlobalV.Client.RemoveAll g cg db col sel drv).ret = (0, some e) ∧
        (GlobalV.Client.RemoveAll g cg db col sel drv).calls = 0) ∧
    (∀ (g : GlobalV.State) (cg : GlobalV.Client) (db col : String) (sel upd : GoMap)
        (upsert : Bool) (drv : Except Err ChangeInfo),
      (GlobalV.Client.FindAndModify g cg db col sel upd upsert drv).st = g ∧
      ∀ e, g.connErr = some e →
        (GlobalV.Client.FindAndModify g cg db col sel upd upsert drv).ret = (0, some e) ∧
        (GlobalV.Client.FindAndModify g cg db col sel upd upsert drv).calls = 0) ∧
    (∀ (g : GlobalV.State) (cg : GlobalV.Client) (db col : String) (sel : GoMap)
        (drv : Except Err ChangeInfo),
      (GlobalV.Client.FindAndRemove g cg db col sel drv).st = g ∧
      ∀ e, g.connErr = some e →
        (GlobalV.Client.FindAndRemove g cg db col sel drv).ret = (0, some e) ∧
        (GlobalV.Client.FindAndRemove g cg db col sel drv).calls = 0) ∧
    (∀ (g : GlobalV.State) (cg : GlobalV.Client) (db col : String) (p : List GoMap)
        (drv : Option Err),
      (GlobalV.Client.GetPipeRow g cg db col p drv).st = g ∧
      ∀ e, g.connErr = some e →
        (GlobalV.Client.GetPipeRow g cg db col p drv).ret = some e ∧
        (GlobalV.Client.GetPipeRow g cg db col p drv).calls = 0) ∧
    (∀ (g : GlobalV.State) (cg : GlobalV.Client) (db col : String) (p : List GoMap)
        (drv : Option Err),
      (GlobalV.Client.GetPipeResult g cg db col p drv).st = g ∧
      ∀ e, g.connErr = some e →
        (GlobalV.Client.GetPipeResult g cg db col p drv).ret = some e ∧
        (GlobalV.Client.GetPipeResult g cg db col p drv).calls = 0) := by
  refine ⟨?_, ?_, ?_, ?_, ?_, ?_, ?_, ?_, ?_, ?_, ?_, ?_, ?_, ?_, ?_, ?_, ?_, ?_, ?_, ?_,
    ?_, ?_, ?_, ?_, ?_, ?_⟩
  · intro c db col q drv
    refine ⟨?_, fun e he => ?_⟩
    · cases hc : c.connErr <;> simp [StructV.Client.GetRow, hc]
    · simp [StructV.Client.GetRow, he]
  · intro c db col q f o drv
    refine ⟨?_, fun e he => ?_⟩
    · cases hc : c.connErr <;> simp [StructV.Client.GetResult, hc]
    · simp [StructV.Client.GetResult, he]
  · intro c db col q drv
    refine ⟨?_, fun e he => ?_⟩
    · cases hc : c.connErr <;> simp [StructV.Client.GetCount, hc]
    · simp [StructV.Client.GetCount, he]
  · intro c db col docs drv
    refine ⟨?_, fun e he => ?_⟩
    · cases hc : c.connErr <;> simp [StructV.Client.Insert, hc]
    · simp [StructV.Client.Insert, he]
  · intro c db col sel upd drv
    refine ⟨?_, fun e he => ?_⟩
    · cases hc : c.connErr <;> simp [StructV.Client.Update, hc]
    · simp [StructV.Client.Update, he]
  · intro c db col sel upd drv
    refine ⟨?_, fun e he => ?_⟩
    · cases hc : c.connErr <;> cases drv <;> simp [StructV.Client.UpdateAll, hc]
    · simp [StructV.Client.UpdateAll, he]
  · intro c db col sel upd drv
    refine ⟨?_, fun e he => ?_⟩
    · cases hc : c.connErr <;> cases drv <;> simp [StructV.Client.Upsert, hc]
    · simp [StructV.Client.Upsert, he]
  · intro c db col sel drv
    refine ⟨?_, fun e he => ?_⟩
    · cases hc : c.connErr <;> simp [StructV.Client.Remove, hc]
    · simp [StructV.Client.Remove, he]
  · intro c db col sel drv
    refine ⟨?_, fun e he => ?_⟩
    · cases hc : c.connErr <;> cases drv <;> simp [StructV.Client.RemoveAll, hc]
    · simp [StructV.Client.RemoveAll, he]
  · intro c db col sel upd upsert drv
    refine ⟨?_, fun e he => ?_⟩
    · cases hc : c.connErr <;> cases drv <;> simp [StructV.Client.FindAndModify, hc]
    · simp [StructV.Client.FindAndModify, he]
  · intro c db col sel drv
    refine ⟨?_, fun e he => ?_⟩
    · cases hc : c.connErr <;> cases drv <;> simp [StructV.Client.FindAndRemove, hc]
    · simp [StructV.Client.FindAndRemove, he]
  · intro c db col p drv
    refine ⟨?_, fun e he => ?_⟩
    · cases hc : c.connErr <;> simp [StructV.Client.GetPipeRow, hc]
    · simp [StructV.Client.GetPipeRow, he]
  · intro c db col p drv
    refine ⟨?_, fun e he => ?_⟩
    · cases hc : c.connErr <;> simp [StructV.Client.GetPipeResult, hc]
    · simp [StructV.Client.GetPipeResult, he]
  · intro g cg db col q drv
    refine ⟨?_, fun e he => ?_⟩
    · cases hg : g.connErr <;> simp [GlobalV.Client.GetRow, hg]
    · simp [GlobalV.Client.GetRow, he]
  · intro g cg db col q f o drv
    refine ⟨?_, fun e he => ?_⟩
    · cases hg : g.connErr <;> simp [GlobalV.Client.GetResult, hg]
    · simp [GlobalV.Client.GetResult, he]
  · intro g cg db col q drv
    refine ⟨?_, fun e he => ?_⟩
    · cases hg : g.connErr <;> simp [GlobalV.Client.GetCount, hg]
    · simp [GlobalV.Client.GetCount, he]
  · intro g cg db col docs drv
    refine ⟨?_, fun e he => ?_⟩
    · cases hg : g.connErr <;> simp [GlobalV.Client.Insert, hg]
    · simp [GlobalV.Client.Insert, he]
  · intro g cg db col sel upd drv
    refine ⟨?_, fun e he => ?_⟩
    · cases hg : g.connErr <;> simp [GlobalV.Client.Update, hg]
    · simp [GlobalV.Client.Update, he]
  · intro g cg db col sel upd drv
    refine ⟨?_, fun e he => ?_⟩
    · cases hg : g.connErr <;> cases drv <;> simp [GlobalV.Client.UpdateAll, hg]
    · simp [GlobalV.Client.UpdateAll, he]
  · intro g cg db col sel upd drv
    refine ⟨?_, fun e he => ?_⟩
    · cases hg : g.connErr <;> cases drv <;> simp [GlobalV.Client.Upsert, hg]
    · simp [GlobalV.Client.Upsert, he]
  · intro g cg db col sel drv
    refine ⟨?_, fun e he => ?_⟩
    · cases hg : g.connErr <;> simp [GlobalV.Client.Remove, hg]
    · simp [GlobalV.Client.Remove, he]
  · intro g cg db col sel drv
    refine ⟨?_, fun e he => ?_⟩
    · cases hg : g.connErr <;> cases drv <;> simp [GlobalV.Client.RemoveAll, hg]
    · simp [GlobalV.Client.RemoveAll, he]
  · intro g cg db col sel upd upsert drv
    refine ⟨?_, fun e he => ?_⟩
    · cases hg : g.connErr <;> cases drv <;> simp [GlobalV.Client.FindAndModify, hg]
    · simp [GlobalV.Client.FindAndModify, he]
  · intro g cg db col sel drv
    refine ⟨?_, fun e he => ?_⟩
    · cases hg : g.connErr <;> cases drv <;> simp [GlobalV.Client.FindAndRemove, hg]
    · simp [GlobalV.Client.FindAndRemove, he]
  · intro g cg db col p drv
    refine ⟨?_, fun e he => ?_⟩
    · cases hg : g.connErr <;> simp [GlobalV.Client.GetPipeRow, hg]
    · simp [GlobalV.Client.GetPipeRow, he]
  · intro g cg db col p drv
    refine ⟨?_, fun e he => ?_⟩
    · cases hg : g.connErr <;> simp [GlobalV.Client.GetPipeResult, hg]
    · simp [GlobalV.Client.GetPipeResult, he]

/-- Witness for C1 at a concrete sticky client. -/
theorem C1_sticky_error_short_circuit_witness :
    (StructV.Client.GetRow { host := "h", session := none, connErr := some "boom" }
        "db" "col" [] (some "driver")).ret = some "boom" :=
  ((C1_sticky_error_short_circuit.1 { host := "h", session := none, connErr := some "boom" }
      "db" "col" [] (some "driver")).2 "boom" rfl).1

/-- C2: the package-level global-session variant and the per-client
variant are behaviorally equivalent on the facade surface: given equal
sticky-error state and the same driver response, every facade method
attempts the same number of driver operations (0 or the single call)
and returns the same results and error. -/
theorem C2_variant_equivalence :
    (∀ (cs : StructV.Client) (g : GlobalV.State) (cg : GlobalV.Client),
      cs.connErr = g.connErr →
      ∀ (db col : String) (q : GoMap) (drv : Option Err),
        (StructV.Client.GetRow cs db col q drv).ret =
          (GlobalV.Client.GetRow g cg db col q drv).ret ∧
        (StructV.Client.GetRow cs db col q drv).calls =
          (GlobalV.Client.GetRow g cg db col q drv).calls) ∧
    (∀ (cs : StructV.Client) (g : GlobalV.State) (cg : GlobalV.Client),
      cs.connErr = g.connErr →
      ∀ (db col : String) (q f o : GoMap) (drv : Option Err),
        (StructV.Client.GetResult cs db col q f o drv).ret =
          (GlobalV.Client.GetResult g cg db col q f o drv).ret ∧
        (StructV.Client.GetResult cs db col q f o drv).calls =
          (GlobalV.Client.GetResult g cg db col q f o drv).calls) ∧
    (∀ (cs : StructV.Client) (g : GlobalV.State) (cg : GlobalV.Client),
      cs.connErr = g.connErr →
      ∀ (db col : String) (q : GoMap) (drv : Int × Option Err),
        (StructV.Client.GetCount cs db col q drv).ret =
          (GlobalV.Client.GetCount g cg db col q drv).ret ∧
        (StructV.Client.GetCount cs db col q drv).calls =
          (GlobalV.Client.GetCount g cg db col q drv).calls) ∧
    (∀ (cs : StructV.Client) (g : GlobalV.State) (cg : GlobalV.Client),
      cs.connErr = g.connErr →
      ∀ (db col : String) (docs : List GoVal) (drv : Option Err),
        (StructV.Client.Insert cs db col docs drv).ret =
          (GlobalV.Client.Insert g cg db col docs drv).ret ∧
        (StructV.Client.Insert cs db col docs drv).calls =
          (GlobalV.Client.Insert g cg db col docs drv).calls) ∧
    (∀ (cs : StructV.Client) (g : GlobalV.State) (cg : GlobalV.Client),
      cs.connErr = g.connErr →
      ∀ (db col : String) (sel upd : GoMap) (drv : Option Err),
        (StructV.Client.Update cs db col sel upd drv).ret =
          (GlobalV.Client.Update g cg db col sel upd drv).ret ∧
        (StructV.Client.Update cs db col sel upd drv).calls =
          (GlobalV.Client.Update g cg db col sel upd drv).calls) ∧
    (∀ (cs : StructV.Client) (g : GlobalV.State) (cg : GlobalV.Client),
      cs.connErr = g.connErr →
      ∀ (db col : String) (sel upd : GoMap) (drv : Except Err ChangeInfo),
        (StructV.Client.UpdateAll cs db col sel upd drv).ret =
          (GlobalV.Client.UpdateAll g cg db col sel upd drv).ret ∧
        (StructV.Client.UpdateAll cs db col sel upd drv).calls =
          (GlobalV.Client.UpdateAll g cg db col sel upd drv).calls) ∧
    (∀ (cs : StructV.Client) (g : GlobalV.State) (cg : GlobalV.Client),
      cs.connErr = g.connErr →
      ∀ (db col : String) (sel upd : GoMap) (drv : Except Err ChangeInfo),
        (StructV.Client.Upsert cs db col sel upd drv).ret =
          (GlobalV.Client.Upsert g cg db col sel upd drv).ret ∧
        (StructV.Client.Upsert cs db col sel upd drv).calls =
          (GlobalV.Client.Upsert g cg db col sel upd drv).calls) ∧
    (∀ (cs : StructV.Client) (g : GlobalV.State) (cg : GlobalV.Client),
      cs.connErr = g.connErr →
      ∀ (db col : String) (sel : GoMap) (drv : Option Err),
        (StructV.Client.Remove cs db col sel drv).ret =
          (GlobalV.Client.Remove g cg db col sel drv).ret ∧
        (StructV.Client.Remove cs db col sel drv).calls =
          (GlobalV.Client.Remove g cg db col sel drv).calls) ∧
    (∀ (cs : StructV.Client) (g : GlobalV.State) (cg : GlobalV.Client),
      cs.connErr = g.connErr →
      ∀ (db col : String) (sel : GoMap) (drv : Except Err ChangeInfo),
        (StructV.Client.RemoveAll cs db col sel drv).ret =
          (GlobalV.Client.RemoveAll g cg db col sel drv).ret ∧
        (StructV.Client.RemoveAll cs db col sel drv).calls =
          (GlobalV.Client.RemoveAll g cg db col sel drv).calls) ∧
    (∀ (cs : StructV.Client) (g : GlobalV.State) (cg : GlobalV.Client),
      cs.connErr = g.connErr →
      ∀ (db col : String) (sel upd : GoMap) (upsert : Bool) (drv : Except Err ChangeInfo),
        (StructV.Client.FindAndModify cs db col sel upd upsert drv).ret =
          (GlobalV.Client.FindAndModify g cg db col sel upd upsert drv).ret ∧
        (StructV.Client.FindAndModify cs db col sel upd upsert drv).calls =
          (GlobalV.Client.FindAndModify g cg db col sel upd upsert drv).calls) ∧
    (∀ (cs : StructV.Client) (g : GlobalV.State) (cg : GlobalV.Client),
      cs.connErr = g.connErr →
      ∀ (db col : String) (sel : GoMap) (drv : Except Err ChangeInfo),
        (StructV.Client.FindAndRemove cs db col sel drv).ret =
          (GlobalV.Client.FindAndRemove g cg db col sel drv).ret ∧
        (StructV.Client.FindAndRemove cs db col sel drv).calls =
          (GlobalV.Client.FindAndRemove g cg db col sel drv).calls) ∧
    (∀ (cs : StructV.Client) (g : GlobalV.State) (cg : GlobalV.Client),
      cs.connErr = g.connErr →
      ∀ (db col : String) (p : List GoMap) (drv : Option Err),
        (StructV.Client.GetPipeRow cs db col p drv).ret =
          (GlobalV.Client.GetPipeRow g cg db col p drv).ret ∧
        (StructV.Client.GetPipeRow cs db col p drv).calls =
          (GlobalV.Client.GetPipeRow g cg db col p drv).calls) ∧
    (∀ (cs : StructV.Client) (g : GlobalV.State) (cg : GlobalV.Client),
      cs.connErr = g.connErr →
      ∀ (db col : String) (p : List GoMap) (drv : Option Err),
        (StructV.Client.GetPipeResult cs db col p drv).ret =
          (GlobalV.Client.GetPipeResult g cg db col p drv).ret ∧
        (StructV.Client.GetPipeResult cs db col p drv).calls =
          (GlobalV.Client.GetPipeResult g cg db col p drv).calls) := by
  refine ⟨?_, ?_, ?_, ?_, ?_, ?_, ?_, ?_, ?_, ?_, ?_, ?_, ?_⟩
  · intro cs g cg h db col q drv
    cases hg : g.connErr <;>
      simp [StructV.Client.GetRow, GlobalV.Client.GetRow, hg, h.trans hg]
  · intro cs g cg h db col q f o drv
    cases hg : g.connErr <;>
      simp [StructV.Client.GetResult, GlobalV.Client.GetResult, hg, h.trans hg]
  · intro cs g cg h db col q drv
    cases hg : g.connErr <;>
      simp [StructV.Client.GetCount, GlobalV.Client.GetCount, hg, h.trans hg]
  · intro cs g cg h db col docs drv
    cases hg : g.connErr <;>
      simp [StructV.Client.Insert, GlobalV.Client.Insert, hg, h.trans hg]
  · intro cs g cg h db col sel upd drv
    cases hg : g.connErr <;>
      simp [StructV.Client.Update, GlobalV.Client.Update, hg, h.trans hg]
  · intro cs g cg h db col sel upd drv
    cases hg : g.connErr <;> cases drv <;>
      simp [StructV.Client.UpdateAll, GlobalV.Client.UpdateAll, hg, h.trans hg]
  · intro cs g cg h db col sel upd drv
    cases hg : g.connErr <;> cases drv <;>
      simp [StructV.Client.Upsert, GlobalV.Client.Upsert, hg, h.trans hg]
  · intro cs g cg h db col sel drv
    cases hg : g.connErr <;>
      simp [StructV.Client.Remove, GlobalV.Client.Remove, hg, h.trans hg]
  · intro cs g cg h db col sel drv
    cases hg : g.connErr <;> cases drv <;>
      simp [StructV.Client.RemoveAll, GlobalV.Client.RemoveAll, hg, h.trans hg]
  · intro cs g cg h db col sel upd upsert drv
    cases hg : g.connErr <;> cases drv <;>
      simp [StructV.Client.FindAndModify, GlobalV.Client.FindAndModify, hg, h.trans hg]
  · intro cs g cg h db col sel drv
    cases hg : g.connErr <;> cases drv <;>
      simp [StructV.Client.FindAndRemove, GlobalV.Client.FindAndRemove, hg, h.trans hg]
  · intro cs g cg h db col p drv
    cases hg : g.connErr <;>
      simp [StructV.Client.GetPipeRow, GlobalV.Client.GetPipeRow, hg, h.trans hg]
  · intro cs g cg h db col p drv
    cases hg : g.connErr <;>
      simp [StructV.Client.GetPipeResult, GlobalV.Client.GetPipeResult, hg, h.trans hg]

/-- Witness for C2 at concrete matching states (no sticky error). -/
theorem C2_variant_equivalence_witness :
    (StructV.Client.GetRow { host := "h", session := none, connErr := none }
        "db" "col" [] (some "driver")).ret =
      (GlobalV.Client.GetRow { connErr := none } { session := none }
        "db" "col" [] (some "driver")).ret :=
  (C2_variant_equivalence.1 { host := "h", session := none, connErr := none }
      { connErr := none } { session := none } rfl "db" "col" [] (some "driver")).1
